import Mathlib

/-!
Verification of the AdTargetAI export-orchestration and credit-accounting
core against its natural-language specification.

Shallow embedding of the relevant Python modules:

* `app/services/credit_service.py` (CreditService),
  `app/db/models/user.py` (User credit methods),
  `app/crud_user.py` (record_credit_usage)          → credit-ledger section
* `app/export_manager/platform_router.py`           → orchestrator section
* `app/main.py` export persistence + admin gate,
  `app/crud.py` (update_exported_ids, merge variant) → export-state section
* `app/export_manager/facebook_exporter.py`         → provider-adapter section
* `app/llm_reasoner/mistral_reasoner.py`,
  `app/core/models.py` (AudienceInsights bounds)    → reasoning-client section

Monetary values are modelled with exact integer arithmetic (the amounts used
by the service layer are Python ints; the float column only stores them).
Exceptions are modelled explicitly: an operation returns its final state
together with an optional raised message, states being unchanged when the
raise happens before any mutation, exactly as in the Python control flow.
Wall-clock timestamps and log strings that no claim mentions are omitted.
-/

namespace AdTargetAI

/-! ## Generic association-map helper

Python `dict` assignment `d[k] = v`: the value of an existing key is replaced
in place (keeping its position), a new key is appended at the end. -/

/-- Python dict assignment `d[k] = v` on an association list. -/
def dictInsert {α β : Type} [BEq α] : List (α × β) → α → β → List (α × β)
  | [], k, v => [(k, v)]
  | (k', v') :: t, k, v =>
      if k' == k then (k', v) :: t else (k', v') :: dictInsert t k v

theorem lookup_dictInsert {α β : Type} [BEq α] [LawfulBEq α]
    (l : List (α × β)) (k a : α) (v : β) :
    List.lookup a (dictInsert l k v) =
      if a == k then some v else List.lookup a l := by
  induction l with
  | nil =>
      cases hak : a == k <;> simp [dictInsert, List.lookup, hak]
  | cons h t ih =>
      obtain ⟨k', v'⟩ := h
      cases hkk : k' == k with
      | true =>
          have hk : k' = k := eq_of_beq hkk
          subst hk
          cases hak : a == k' <;> simp [dictInsert, List.lookup, hkk, hak]
      | false =>
          have hk : k' ≠ k := by
            intro hc
            rw [hc] at hkk
            simp at hkk
          cases hak : a == k' with
          | true =>
              have ha : a = k' := eq_of_beq hak
              subst ha
              have hne : (a == k) = false := by
                simp [hk]
              simp [dictInsert, List.lookup, hkk, hak, hne]
          | false =>
              cases hak2 : a == k <;>
                simp [dictInsert, List.lookup, hkk, hak, hak2, ih]

theorem mem_keys_dictInsert {α β : Type} [BEq α] [LawfulBEq α]
    (l : List (α × β)) (k a : α) (v : β) :
    a ∈ (dictInsert l k v).map Prod.fst ↔ a = k ∨ a ∈ l.map Prod.fst := by
  induction l with
  | nil => simp [dictInsert]
  | cons h t ih =>
      obtain ⟨k', v'⟩ := h
      cases hkk : k' == k with
      | true =>
          have hk : k' = k := eq_of_beq hkk
          subst hk
          simp [dictInsert, hkk]
      | false =>
          simp [dictInsert, hkk, ih]
          tauto

theorem nodup_keys_dictInsert {α β : Type} [BEq α] [LawfulBEq α]
    (l : List (α × β)) (k : α) (v : β)
    (h : (l.map Prod.fst).Nodup) :
    ((dictInsert l k v).map Prod.fst).Nodup := by
  induction l with
  | nil => simp [dictInsert]
  | cons hd t ih =>
      obtain ⟨k', v'⟩ := hd
      simp only [List.map_cons, List.nodup_cons] at h
      cases hkk : k' == k with
      | true =>
          have hk : k' = k := eq_of_beq hkk
          subst hk
          simp only [dictInsert, hkk]
          simp [h.1, h.2]
      | false =>
          have hk : k' ≠ k := by
            intro hc
            rw [hc] at hkk
            simp at hkk
          have ht := ih h.2
          have hmem : k' ∉ (dictInsert t k v).map Prod.fst := by
            intro hc
            rcases (mem_keys_dictInsert t k k' v).1 hc with h1 | h1
            · exact hk h1
            · exact h.1 h1
          simp [dictInsert, hkk, ht, hmem]

/-- Python `str.lower()` (the repository only lowercases ASCII names). -/
def pyToLower (s : String) : String := ⟨s.data.map Char.toLower⟩

/-- `pat` is a prefix of `hay`, on character lists. -/
def chListHasPre (pat hay : List Char) : Bool :=
  match pat, hay with
  | [], _ => true
  | _ :: _, [] => false
  | a :: ps, b :: hs => a == b && chListHasPre ps hs

/-- `pat` occurs as a contiguous sublist of `hay`. -/
def chListHasSub (pat hay : List Char) : Bool :=
  match hay with
  | [] => pat.isEmpty
  | _ :: t => chListHasPre pat hay || chListHasSub pat t

/-- Python `pat in s` substring test. -/
def pyContains (s pat : String) : Bool := chListHasSub pat.data s.data

/-! ## Credit ledger

From `app/core/credits_config.py`. -/

def LOW_BALANCE_THRESHOLD : Int := 20

def MIN_CREDITS_REQUIRED : Int := 10

/-- The credit-relevant columns of `User` (`app/db/models/user.py`). -/
structure UserAcct where
  credits_balance : Int
  total_credits_purchased : Int
  total_credits_used : Int
  deriving Repr, DecidableEq

/-- One `CreditUsage` audit row (`app/db/models/credit_usage.py`), as
written by `record_credit_usage`. -/
structure UsageRow where
  credits_used : Int
  action : String
  balance_before : Int
  balance_after : Int
  deriving Repr, DecidableEq

/-- The ledger-visible database state: the user row plus the append-only
`credit_usage` audit trail. -/
structure LedgerState where
  user : UserAcct
  usage : List UsageRow
  deriving Repr, DecidableEq

/-- Outcome of a credit operation: the post-call state, and the message of
the raised exception when one was raised (`none` = returned normally). -/
structure CreditOpResult where
  state : LedgerState
  error : Option String
  deriving Repr, DecidableEq

/-- Return shape of `CreditService.check_balance`. -/
structure BalanceCheck where
  has_enough : Bool
  current_balance : Int
  required : Int
  after_deduction : Int
  is_low_balance : Bool
  message : String
  deriving Repr, DecidableEq

/-- `CreditService._get_balance_message`. -/
def getBalanceMessage (balance required : Int) (has_enough : Bool) : String :=
  if !has_enough then
    "Insufficient credits. You need " ++ toString (required - balance) ++ " more credits."
  else if balance ≤ LOW_BALANCE_THRESHOLD then
    "Low balance warning! You have " ++ toString balance ++ " credits remaining."
  else
    "You have " ++ toString balance ++ " credits available."

/-- `CreditService.check_balance` (`app/services/credit_service.py` 24-45).
The function only reads `user.credits_balance`; the returned `UserAcct` is
the user object as it stands after the call. -/
def checkBalance (user : UserAcct) (required_credits : Int) : BalanceCheck × UserAcct :=
  let has_enough := user.credits_balance ≥ required_credits
  let is_low := user.credits_balance ≤ LOW_BALANCE_THRESHOLD
  (⟨has_enough,
    user.credits_balance,
    required_credits,
    if has_enough then user.credits_balance - required_credits else user.credits_balance,
    is_low,
    getBalanceMessage user.credits_balance required_credits has_enough⟩,
   user)

/-- `CreditService.deduct_credits` (`app/services/credit_service.py` 57-107).
Raises before any mutation when the balance is short; appends no audit row. -/
def serviceDeduct (s : LedgerState) (amount : Int) : CreditOpResult :=
  if s.user.credits_balance < amount then
    { state := s,
      error := some ("Insufficient credits. Required: " ++ toString amount ++
        ", Available: " ++ toString s.user.credits_balance) }
  else
    { state := { s with user := { s.user with
        credits_balance := s.user.credits_balance - amount } },
      error := none }

/-- `CreditService.refund_credits` (`app/services/credit_service.py` 109-149).
Unconditionally increments the balance; appends no audit row. -/
def serviceRefund (s : LedgerState) (amount : Int) : CreditOpResult :=
  { state := { s with user := { s.user with
      credits_balance := s.user.credits_balance + amount } },
    error := none }

/-- `User.deduct_credits` (`app/db/models/user.py` 90-97). -/
def userDeduct (u : UserAcct) (amount : Int) : Except String UserAcct :=
  if amount ≤ 0 then
    .error "Credit amount must be positive"
  else if u.credits_balance < amount then
    .error ("Insufficient credits. Available: " ++ toString u.credits_balance ++
      ", Required: " ++ toString amount)
  else
    .ok { u with
      credits_balance := u.credits_balance - amount,
      total_credits_used := u.total_credits_used + amount }

/-- `record_credit_usage` (`app/crud_user.py` 177-208): deducts through
`User.deduct_credits` and appends exactly one `CreditUsage` row with the
before/after balance snapshot; an exception from the deduction propagates
before any row is created. -/
def recordCreditUsage (s : LedgerState) (credits_used : Int) (action : String) :
    CreditOpResult :=
  let balance_before := s.user.credits_balance
  match userDeduct s.user credits_used with
  | .error m => { state := s, error := some m }
  | .ok u2 =>
      let row : UsageRow := ⟨credits_used, action, balance_before, u2.credits_balance⟩
      { state := { user := u2, usage := s.usage ++ [row] }, error := none }

end AdTargetAI

namespace AdTargetAI

/-! ## Claims about the credit ledger -/

/-- **C9**. `CheckBalance` is a pure read: the user object is unchanged, no
matter how many times it is called, and `is_low_balance` equals
`balance ≤ LOW_BALANCE_THRESHOLD` regardless of the check outcome. -/
theorem checkBalance_pure_read (u : UserAcct) (required : Int) :
    (checkBalance u required).2 = u ∧
    (∀ n : Nat, (fun x => (checkBalance x required).2)^[n] u = u) ∧
    (checkBalance u required).1.is_low_balance =
      decide (u.credits_balance ≤ LOW_BALANCE_THRESHOLD) ∧
    (checkBalance u required).1.has_enough =
      decide (u.credits_balance ≥ required) := by
  refine ⟨rfl, ?_, ?_, ?_⟩
  · intro n
    induction n with
    | zero => rfl
    | succ k ih => rw [Function.iterate_succ_apply, show (checkBalance u required).2 = u from rfl, ih]
  · simp [checkBalance]
  · simp [checkBalance]

/-- **C2**. For every account with a non-negative balance and every amount
strictly greater than the balance, both deduction paths fail with an
insufficient-credits error and leave the balance and the audit trail exactly
as they were. -/
theorem deduct_insufficient_noop (s : LedgerState) (amount : Int) (action : String)
    (hnn : 0 ≤ s.user.credits_balance)
    (hgt : s.user.credits_balance < amount) :
    (serviceDeduct s amount).state = s ∧
    (serviceDeduct s amount).error =
      some ("Insufficient credits. Required: " ++ toString amount ++
        ", Available: " ++ toString s.user.credits_balance) ∧
    (recordCreditUsage s amount action).state = s ∧
    (recordCreditUsage s amount action).error =
      some ("Insufficient credits. Available: " ++ toString s.user.credits_balance ++
        ", Required: " ++ toString amount) := by
  have hpos : ¬ amount ≤ 0 := by omega
  refine ⟨?_, ?_, ?_, ?_⟩
  · simp [serviceDeduct, hgt]
  · simp [serviceDeduct, hgt]
  · simp [recordCreditUsage, userDeduct, hpos, hgt]
  · simp [recordCreditUsage, userDeduct, hpos, hgt]

/-- Witness for `deduct_insufficient_noop` at balance 30, amount 50. -/
theorem deduct_insufficient_noop_witness :
    (serviceDeduct ⟨⟨30, 0, 0⟩, []⟩ 50).state = ⟨⟨30, 0, 0⟩, []⟩ ∧
    (recordCreditUsage ⟨⟨30, 0, 0⟩, []⟩ 50 "campaign_generation").state = ⟨⟨30, 0, 0⟩, []⟩ := by
  have h := deduct_insufficient_noop ⟨⟨30, 0, 0⟩, []⟩ 50 "campaign_generation"
    (by decide) (by decide)
  exact ⟨h.1, h.2.2.1⟩

/-- **C4, counterexample**. With balance 100 and amount 50, `Deduct` followed
by `Refund` of the same amount through `CreditService` restores the balance
but appends zero audit rows, not the two chained rows the claim requires. -/
theorem deduct_refund_two_rows_cex :
    (serviceRefund (serviceDeduct ⟨⟨100, 0, 0⟩, []⟩ 50).state 50).state.user.credits_balance
      = 100 ∧
    ¬ ((serviceRefund (serviceDeduct ⟨⟨100, 0, 0⟩, []⟩ 50).state 50).state.usage.length
      = ([] : List UsageRow).length + 2) := by
  constructor
  · decide
  · decide

/-- **C4, amended**. Deduct-then-refund of the same amount restores the
balance to its pre-deduct value; the service-level pair appends no audit
rows at all, while the `record_credit_usage` deduction path appends exactly
one audit row, which chains consistently (`balance_before` is the pre-deduct
balance and `balance_after = balance_before - amount`); the refund appends
none. -/
theorem deduct_refund_restores_balance (s : LedgerState) (amount : Int) (action : String)
    (hpos : 0 < amount) (hle : amount ≤ s.user.credits_balance) :
    ((serviceRefund (serviceDeduct s amount).state amount).state.user.credits_balance
        = s.user.credits_balance ∧
      (serviceDeduct s amount).error = none ∧
      (serviceRefund (serviceDeduct s amount).state amount).state.usage = s.usage) ∧
    ((serviceRefund (recordCreditUsage s amount action).state amount).state.user.credits_balance
        = s.user.credits_balance ∧
      (recordCreditUsage s amount action).error = none ∧
      (serviceRefund (recordCreditUsage s amount action).state amount).state.usage =
        s.usage ++ [⟨amount, action, s.user.credits_balance,
          s.user.credits_balance - amount⟩]) := by
  have hnlt : ¬ s.user.credits_balance < amount := by omega
  have hnpos : ¬ amount ≤ 0 := by omega
  refine ⟨⟨?_, ?_, ?_⟩, ⟨?_, ?_, ?_⟩⟩
  · simp [serviceDeduct, serviceRefund, hnlt]
  · simp [serviceDeduct, hnlt]
  · simp [serviceDeduct, serviceRefund, hnlt]
  · simp [recordCreditUsage, userDeduct, serviceRefund, hnpos, hnlt]
  · simp [recordCreditUsage, userDeduct, hnpos, hnlt]
  · simp [recordCreditUsage, userDeduct, serviceRefund, hnpos, hnlt]

/-- Witness for `deduct_refund_restores_balance` at balance 100, amount 50. -/
theorem deduct_refund_restores_balance_witness :
    (serviceRefund (serviceDeduct ⟨⟨100, 0, 0⟩, []⟩ 50).state 50).state.user.credits_balance
      = 100 ∧
    (serviceRefund (recordCreditUsage ⟨⟨100, 0, 0⟩, []⟩ 50 "campaign_generation").state
        50).state.usage =
      [⟨50, "campaign_generation", 100, 50⟩] := by
  have h := deduct_refund_restores_balance ⟨⟨100, 0, 0⟩, []⟩ 50 "campaign_generation"
    (by decide) (by decide)
  exact ⟨h.1.1, by simpa using h.2.2.2⟩

end AdTargetAI

namespace AdTargetAI

/-! ## Export orchestrator

From `app/export_manager/platform_router.py` (`PlatformRouter.export_to_platforms`).
A provider adapter is modelled by its observable behaviour: the per-name
outcome of constructing the exporter and running `create_campaign_flow`,
which either returns a result dictionary or raises. -/

/-- The uniform per-provider result dictionary: `status`, `platform`,
`message`, plus the provider-returned identifiers keyed by role
(`campaign_id`, `adset_id`, `creative_id`, `ad_id`) when present. -/
structure PlatRes where
  status : String
  platform : String
  message : String
  ids : List (String × String)
  deriving Repr, DecidableEq

/-- Outcome of one adapter invocation: a returned result, or a raised
exception with its message. -/
inductive AdapterOutcome where
  | ok (res : PlatRes)
  | exn (msg : String)
  deriving Repr, DecidableEq

/-- The provider names `export_to_platforms` recognises (the `elif` chain,
lines 40-54). -/
def knownPlatforms : List String :=
  ["facebook", "google", "tiktok", "instagram", "linkedin"]

/-- The result stored in the slot of one (lowercased) requested name:
* unrecognised name → the `skipped` stub (line 58);
* adapter invocation raised → the `error` dictionary built either when
  exporter construction fails (line 69) or when `asyncio.gather` returns the
  exception (line 82);
* otherwise the adapter's own result dictionary. -/
def slotResult (behavior : String → AdapterOutcome) (pl : String) : PlatRes :=
  if pl ∈ knownPlatforms then
    match behavior pl with
    | .ok r => r
    | .exn m => ⟨"error", pl, m, []⟩
  else
    ⟨"skipped", pl, "Platform " ++ pl ++ " not implemented", []⟩

/-- `PlatformRouter.export_to_platforms` (lines 30-86): each requested name
is lowercased and keyed into `platform_map` (later duplicates replace the
earlier slot index), and the final `results` dict maps each key to its
slot's outcome. -/
def exportToPlatforms (behavior : String → AdapterOutcome)
    (platforms : List String) : List (String × PlatRes) :=
  platforms.foldl
    (fun acc p => dictInsert acc (pyToLower p) (slotResult behavior (pyToLower p)))
    []

theorem lookup_foldl_export (behavior : String → AdapterOutcome)
    (platforms : List String) (acc : List (String × PlatRes)) (key : String) :
    List.lookup key
        (platforms.foldl
          (fun a p => dictInsert a (pyToLower p) (slotResult behavior (pyToLower p)))
          acc) =
      if key ∈ platforms.map pyToLower then some (slotResult behavior key)
      else List.lookup key acc := by
  induction platforms generalizing acc with
  | nil => simp
  | cons p t ih =>
      rw [List.foldl_cons, ih]
      by_cases hmem : key ∈ t.map pyToLower
      · simp [hmem]
      · rw [lookup_dictInsert]
        by_cases hk : key = pyToLower p
        · subst hk
          simp [hmem]
        · have hbeq : (key == pyToLower p) = false := by simp [hk]
          simp [hmem, hbeq, hk]

theorem mem_keys_foldl_export (behavior : String → AdapterOutcome)
    (platforms : List String) (acc : List (String × PlatRes)) (key : String) :
    key ∈ (platforms.foldl
        (fun a p => dictInsert a (pyToLower p) (slotResult behavior (pyToLower p)))
        acc).map Prod.fst ↔
      key ∈ platforms.map pyToLower ∨ key ∈ acc.map Prod.fst := by
  induction platforms generalizing acc with
  | nil => simp
  | cons p t ih =>
      rw [List.foldl_cons, ih]
      rw [mem_keys_dictInsert]
      simp only [List.map_cons, List.mem_cons]
      tauto

theorem nodup_keys_foldl_export (behavior : String → AdapterOutcome)
    (platforms : List String) (acc : List (String × PlatRes))
    (h : (acc.map Prod.fst).Nodup) :
    ((platforms.foldl
        (fun a p => dictInsert a (pyToLower p) (slotResult behavior (pyToLower p)))
        acc).map Prod.fst).Nodup := by
  induction platforms generalizing acc with
  | nil => simpa
  | cons p t ih =>
      rw [List.foldl_cons]
      exact ih _ (nodup_keys_dictInsert _ _ _ h)

/-- **C3**. The orchestrator produces a result for every requested name, in
that name's lowercased slot: an unrecognised name yields the `skipped` stub
with its explanatory message, a raised adapter failure is converted into an
`error` result carrying the exception message, and in commit or preview mode
alike no failure propagates: the slot of every other requested name is
exactly the same as it would be with any behaviour that agrees outside the
failing name. -/
theorem orchestrator_isolates_failures (behavior : String → AdapterOutcome)
    (platforms : List String) (p : String) (hp : p ∈ platforms) :
    List.lookup (pyToLower p) (exportToPlatforms behavior platforms) =
      some (slotResult behavior (pyToLower p)) ∧
    (pyToLower p ∉ knownPlatforms →
      slotResult behavior (pyToLower p) =
        ⟨"skipped", pyToLower p,
          "Platform " ++ pyToLower p ++ " not implemented", []⟩) ∧
    (∀ m, pyToLower p ∈ knownPlatforms → behavior (pyToLower p) = .exn m →
      slotResult behavior (pyToLower p) = ⟨"error", pyToLower p, m, []⟩) ∧
    (∀ behavior2 : String → AdapterOutcome, ∀ q : String, q ∈ platforms →
      pyToLower q ≠ pyToLower p →
      (∀ k, k ≠ pyToLower p → behavior2 k = behavior k) →
      List.lookup (pyToLower q) (exportToPlatforms behavior2 platforms) =
        List.lookup (pyToLower q) (exportToPlatforms behavior platforms)) := by
  have hmem : pyToLower p ∈ platforms.map pyToLower := List.mem_map_of_mem _ hp
  refine ⟨?_, ?_, ?_, ?_⟩
  · rw [exportToPlatforms, lookup_foldl_export]
    simp [hmem]
  · intro hk
    simp [slotResult, hk]
  · intro m hk hb
    simp [slotResult, hk, hb]
  · intro behavior2 q hq hne hagree
    have hqmem : pyToLower q ∈ platforms.map pyToLower := List.mem_map_of_mem _ hq
    rw [exportToPlatforms, exportToPlatforms, lookup_foldl_export, lookup_foldl_export]
    simp only [hqmem, if_true]
    have : slotResult behavior2 (pyToLower q) = slotResult behavior (pyToLower q) := by
      simp [slotResult, hagree _ hne]
    rw [this]

/-- Witness for `orchestrator_isolates_failures`: requesting
`["FACEBOOK", "myspace"]` against an adapter whose facebook invocation
raises gives an error entry for facebook and a skipped entry for myspace. -/
theorem orchestrator_isolates_failures_witness :
    List.lookup (pyToLower "FACEBOOK")
        (exportToPlatforms
          (fun pl => if pl = "facebook" then .exn "boom" else .ok ⟨"success", pl, "", []⟩)
          ["FACEBOOK", "myspace"]) =
      some ⟨"error", "facebook", "boom", []⟩ ∧
    List.lookup (pyToLower "myspace")
        (exportToPlatforms
          (fun pl => if pl = "facebook" then .exn "boom" else .ok ⟨"success", pl, "", []⟩)
          ["FACEBOOK", "myspace"]) =
      some ⟨"skipped", "myspace", "Platform myspace not implemented", []⟩ := by
  constructor
  · have h := orchestrator_isolates_failures
      (fun pl => if pl = "facebook" then .exn "boom" else .ok ⟨"success", pl, "", []⟩)
      ["FACEBOOK", "myspace"] "FACEBOOK" (by decide)
    rw [h.1]
    have : pyToLower "FACEBOOK" = "facebook" := by decide
    rw [this]
    decide
  · have h := orchestrator_isolates_failures
      (fun pl => if pl = "facebook" then .exn "boom" else .ok ⟨"success", pl, "", []⟩)
      ["FACEBOOK", "myspace"] "myspace" (by decide)
    rw [h.1]
    decide

/-- **C10**. The orchestrator's result map is keyed by the lowercased names:
its key list is duplicate-free, a key occurs iff it is the lowercasing of a
requested name, the map never has more entries than the request list, and it
can have strictly fewer (names differing only in case collapse). -/
theorem orchestrator_keys_lowercased (behavior : String → AdapterOutcome)
    (platforms : List String) :
    ((exportToPlatforms behavior platforms).map Prod.fst).Nodup ∧
    (∀ key, key ∈ (exportToPlatforms behavior platforms).map Prod.fst ↔
      ∃ p ∈ platforms, pyToLower p = key) ∧
    (exportToPlatforms behavior platforms).length ≤ platforms.length ∧
    (∃ (ps : List String) (b : String → AdapterOutcome),
      (exportToPlatforms b ps).length < ps.length) := by
  have hnodup : ((exportToPlatforms behavior platforms).map Prod.fst).Nodup :=
    nodup_keys_foldl_export behavior platforms [] (by simp)
  have hmem : ∀ key, key ∈ (exportToPlatforms behavior platforms).map Prod.fst ↔
      ∃ p ∈ platforms, pyToLower p = key := by
    intro key
    rw [exportToPlatforms, mem_keys_foldl_export]
    simp [eq_comm]
  refine ⟨hnodup, hmem, ?_, ?_⟩
  · have hsub : (exportToPlatforms behavior platforms).map Prod.fst ⊆
        platforms.map pyToLower := by
      intro key hk
      rcases (hmem key).1 hk with ⟨p, hp, hlow⟩
      exact hlow ▸ List.mem_map_of_mem _ hp
    have hperm := List.subperm_of_subset hnodup hsub
    have := hperm.length_le
    simpa using this
  · refine ⟨["facebook", "Facebook"], fun _ => .exn "boom", ?_⟩
    decide

end AdTargetAI

namespace AdTargetAI

/-! ## Export state store

From the persistence pass of `export_campaign` (`app/main.py` 1040-1104) and
`crud.update_exported_ids` (`app/crud.py` 166-206; the later, merging
definition is the one Python binds). Per-feed side tables
(`platform_feeds`, `facebook_details`) touched in the same loop are not part
of any claim and are omitted; timestamps are omitted. -/

/-- Campaign-level aggregate: provider name → role → provider-returned id. -/
abbrev ExportedIds := List (String × List (String × String))

/-- One `ExportLog` row as written by `crud.log_export`
(`app/main.py` 1067-1075): mode is `"real"` or `"dry_run"`, `success` is
`status == "success"`, and the error text is the result's message when the
status is not `success`. -/
structure ExportLogRow where
  platform : String
  mode : String
  success : Bool
  error : Option String
  deriving Repr, DecidableEq

/-- One entry of `campaign.export_history` (`app/crud.py` 190-195). -/
structure HistoryEntry where
  exported_ids : ExportedIds
  deriving Repr, DecidableEq

/-- The claim-relevant columns of the `Campaign` row. -/
structure CampaignRow where
  exported_ids : ExportedIds
  export_history : List HistoryEntry
  last_platforms : List String
  deriving Repr, DecidableEq

/-- A persistence pass outcome: the updated campaign row and the appended
`ExportLog` rows. -/
structure PersistOutcome where
  row : CampaignRow
  logs : List ExportLogRow
  deriving Repr, DecidableEq

/-- The log row built by `crud.log_export` for one provider result. -/
def exportLogRow (mode : String) (pr : String × PlatRes) : ExportLogRow :=
  ⟨pr.1, mode, pr.2.status == "success",
   if pr.2.status == "success" then none else some pr.2.message⟩

/-- `aggregated_exported[platform_name] = exported_ids` guarded by
`res.get("status") == "success"` (`app/main.py` 1093-1095). -/
def aggStep (agg : ExportedIds) (pr : String × PlatRes) : ExportedIds :=
  if pr.2.status == "success" then dictInsert agg pr.1 pr.2.ids else agg

/-- One iteration of the persistence loop (`app/main.py` 1044-1095): log the
attempt unconditionally, then fold the identifiers into the aggregate only
on success. -/
def persistStep (mode : String) (st : ExportedIds × List ExportLogRow)
    (pr : String × PlatRes) : ExportedIds × List ExportLogRow :=
  (aggStep st.1 pr, st.2 ++ [exportLogRow mode pr])

/-- `crud.update_exported_ids` (merge variant, `app/crud.py` 166-202):
`existing.update(exported_ids)` then one history entry, `meta_status`
platform list and the last-attempt timestamp. -/
def updateExportedIds (row : CampaignRow) (agg : ExportedIds) : CampaignRow :=
  { exported_ids := agg.foldl (fun acc kv => dictInsert acc kv.1 kv.2) row.exported_ids,
    export_history := row.export_history ++ [⟨agg⟩],
    last_platforms := agg.map Prod.fst }

/-- The persistence pass of `export_campaign` (`app/main.py` 1040-1097):
`aggregated_exported` starts from the row's current `exported_ids`, each
provider result is logged and (only on success) folded in, and the final
aggregate is handed to `crud.update_exported_ids`. -/
def persistExportResults (row : CampaignRow) (results : List (String × PlatRes))
    (create_real_ads : Bool) : PersistOutcome :=
  let mode := if create_real_ads then "real" else "dry_run"
  let fold := results.foldl (persistStep mode) (row.exported_ids, [])
  { row := updateExportedIds row fold.1, logs := fold.2 }

theorem persistStep_foldl (mode : String) (results : List (String × PlatRes))
    (agg0 : ExportedIds) (logs0 : List ExportLogRow) :
    results.foldl (persistStep mode) (agg0, logs0) =
      (results.foldl aggStep agg0, logs0 ++ results.map (exportLogRow mode)) := by
  induction results generalizing agg0 logs0 with
  | nil => simp
  | cons pr t ih => simp [persistStep, ih]

theorem lookup_eq_none_of_not_mem_keys {α β : Type} [BEq α] [LawfulBEq α]
    (l : List (α × β)) (a : α) (h : a ∉ l.map Prod.fst) :
    List.lookup a l = none := by
  induction l with
  | nil => simp
  | cons hd t ih =>
      obtain ⟨k, v⟩ := hd
      have hne : a ≠ k := by
        intro he
        exact h (by simp [he])
      have ht : a ∉ t.map Prod.fst := by
        intro hm
        exact h (by simp [hm])
      have hbeq : (a == k) = false := by simp [hne]
      simp [List.lookup, hbeq, ih ht]

theorem entry_unique_of_nodup_keys {α β : Type} (l : List (α × β))
    (hnodup : (l.map Prod.fst).Nodup) {a : α} {b1 b2 : β}
    (h1 : (a, b1) ∈ l) (h2 : (a, b2) ∈ l) : b1 = b2 := by
  induction l with
  | nil => simp at h1
  | cons hd t ih =>
      obtain ⟨k, v⟩ := hd
      simp only [List.map_cons, List.nodup_cons] at hnodup
      rcases List.mem_cons.1 h1 with he1 | ht1 <;>
        rcases List.mem_cons.1 h2 with he2 | ht2
      · rw [Prod.mk.injEq] at he1 he2
        rw [he1.2, he2.2]
      · rw [Prod.mk.injEq] at he1
        exact absurd (he1.1 ▸ List.mem_map_of_mem Prod.fst ht2) hnodup.1
      · rw [Prod.mk.injEq] at he2
        exact absurd (he2.1 ▸ List.mem_map_of_mem Prod.fst ht1) hnodup.1
      · exact ih hnodup.2 ht1 ht2

theorem lookup_aggStep_foldl (results : List (String × PlatRes))
    (init : ExportedIds) (p : String)
    (hnosucc : ∀ r : PlatRes, (p, r) ∈ results → r.status ≠ "success") :
    List.lookup p (results.foldl aggStep init) = List.lookup p init := by
  induction results generalizing init with
  | nil => simp
  | cons pr t ih =>
      obtain ⟨q, r⟩ := pr
      rw [List.foldl_cons]
      have ht : ∀ r' : PlatRes, (p, r') ∈ t → r'.status ≠ "success" := by
        intro r' hr'
        exact hnosucc r' (List.mem_cons_of_mem _ hr')
      rw [ih _ ht]
      by_cases hs : r.status = "success"
      · have hpq : p ≠ q := by
          intro he
          exact hnosucc r (he ▸ List.mem_cons_self _ _) hs
        have hbeq : (p == q) = false := by simp [hpq]
        simp [aggStep, hs, lookup_dictInsert, hbeq]
      · simp [aggStep, hs]

theorem nodup_keys_aggStep_foldl (results : List (String × PlatRes))
    (init : ExportedIds) (h : (init.map Prod.fst).Nodup) :
    ((results.foldl aggStep init).map Prod.fst).Nodup := by
  induction results generalizing init with
  | nil => simpa
  | cons pr t ih =>
      rw [List.foldl_cons]
      apply ih
      by_cases hs : pr.2.status = "success"
      · simp only [aggStep, hs]
        simpa using nodup_keys_dictInsert _ _ _ h
      · simpa [aggStep, hs]

theorem lookup_merge_foldl (agg init : ExportedIds) (p : String)
    (hnodup : (agg.map Prod.fst).Nodup) :
    List.lookup p (agg.foldl (fun acc kv => dictInsert acc kv.1 kv.2) init) =
      match List.lookup p agg with
      | some v => some v
      | none => List.lookup p init := by
  induction agg generalizing init with
  | nil => simp
  | cons kv t ih =>
      obtain ⟨k, v⟩ := kv
      simp only [List.map_cons, List.nodup_cons] at hnodup
      rw [List.foldl_cons, ih _ hnodup.2]
      by_cases hk : p = k
      · subst hk
        have hnone : List.lookup p t = none :=
          lookup_eq_none_of_not_mem_keys t p hnodup.1
        simp [List.lookup, hnone, lookup_dictInsert]
      · have hbeq : (p == k) = false := by simp [hk]
        simp [List.lookup, hbeq, lookup_dictInsert]

/-- **C1**. In every export persistence pass, a provider result whose status
is not `success` leaves the aggregate's entry for that provider exactly as
it was (the per-provider identifiers keep reflecting the last successful
attempt), while one ExportLog row recording the failed attempt and its
outcome is still appended, and the campaign's export history still grows by
one entry. -/
theorem export_failure_preserves_aggregate (row : CampaignRow)
    (results : List (String × PlatRes)) (create_real_ads : Bool)
    (p : String) (res : PlatRes)
    (hrow : (row.exported_ids.map Prod.fst).Nodup)
    (hkeys : (results.map Prod.fst).Nodup)
    (hmem : (p, res) ∈ results)
    (hfail : res.status ≠ "success") :
    List.lookup p (persistExportResults row results create_real_ads).row.exported_ids =
      List.lookup p row.exported_ids ∧
    (persistExportResults row results create_real_ads).row.export_history.length =
      row.export_history.length + 1 ∧
    (⟨p, (if create_real_ads then "real" else "dry_run"), false, some res.message⟩ :
        ExportLogRow) ∈ (persistExportResults row results create_real_ads).logs := by
  have hnosucc : ∀ r : PlatRes, (p, r) ∈ results → r.status ≠ "success" := by
    intro r hr
    have := entry_unique_of_nodup_keys results hkeys hmem hr
    rw [← this]
    exact hfail
  have haggnodup := nodup_keys_aggStep_foldl results row.exported_ids hrow
  have hagg := lookup_aggStep_foldl results row.exported_ids p hnosucc
  refine ⟨?_, ?_, ?_⟩
  · simp only [persistExportResults, persistStep_foldl, updateExportedIds]
    rw [lookup_merge_foldl _ _ _ haggnodup, hagg]
    cases List.lookup p row.exported_ids <;> simp
  · simp [persistExportResults, persistStep_foldl, updateExportedIds]
  · simp only [persistExportResults, persistStep_foldl]
    have hbeq : (res.status == "success") = false := by simp [hfail]
    have : (⟨p, (if create_real_ads then "real" else "dry_run"), false, some res.message⟩ :
        ExportLogRow) = exportLogRow (if create_real_ads then "real" else "dry_run") (p, res) := by
      simp [exportLogRow, hbeq]
    rw [this]
    simp only [List.nil_append]
    exact List.mem_map_of_mem _ hmem

/-- Witness for `export_failure_preserves_aggregate`: a campaign whose
aggregate already holds `facebook → campaign_id = "X"` from a prior success
keeps that entry when a new facebook attempt fails, while the failed attempt
is still logged and one history entry is appended. -/
theorem export_failure_preserves_aggregate_witness :
    List.lookup "facebook"
        (persistExportResults
          ⟨[("facebook", [("campaign_id", "X")])], [], []⟩
          [("facebook", ⟨"error", "facebook", "token expired", []⟩)]
          true).row.exported_ids = some [("campaign_id", "X")] ∧
    (persistExportResults
          ⟨[("facebook", [("campaign_id", "X")])], [], []⟩
          [("facebook", ⟨"error", "facebook", "token expired", []⟩)]
          true).row.export_history.length = 1 ∧
    (⟨"facebook", "real", false, some "token expired"⟩ : ExportLogRow) ∈
      (persistExportResults
          ⟨[("facebook", [("campaign_id", "X")])], [], []⟩
          [("facebook", ⟨"error", "facebook", "token expired", []⟩)]
          true).logs := by
  have h := export_failure_preserves_aggregate
    ⟨[("facebook", [("campaign_id", "X")])], [], []⟩
    [("facebook", ⟨"error", "facebook", "token expired", []⟩)]
    true "facebook" ⟨"error", "facebook", "token expired", []⟩
    (by decide) (by decide) (by decide) (by decide)
  refine ⟨?_, h.2.1, by simpa using h.2.2⟩
  rw [h.1]
  decide

end AdTargetAI

namespace AdTargetAI

/-! ## Commit-mode authorization gate

From `export_campaign`, step 3 (`app/main.py` 1007-1033). The gate runs
after the campaign is loaded and before the platform router call (step 4,
line 1026). `bcrypt.checkpw` is opaque to the embedding and passed in as a
parameter; its `try/except → ok = False` wrapper is absorbed into that
parameter's value. -/

/-- The settings consulted by the gate. -/
structure AdminSettings where
  ALLOW_REAL_ADS : Bool
  ADMIN_KEY_HASH : Option String
  ADMIN_KEY : Option String
  deriving Repr, DecidableEq

/-- Python truthiness of an optional string (`None` and `""` are falsy). -/
def pyTruthy (o : Option String) : Bool :=
  match o with
  | some s => !(s == "")
  | none => false

/-- Outcome of the admin-gate block: an `HTTPException` (status, detail)
raised before the router, or permission to proceed, recording whether the
token was verified by bcrypt hash comparison (`true`) or by plain string
equality with `ADMIN_KEY` (`false`). -/
inductive GateResult where
  | httpError (status : Nat) (detail : String)
  | proceed (usedHashComparison : Bool)
  deriving Repr, DecidableEq

/-- `app/main.py` 1008-1022. -/
def adminGate (checkpw : String → String → Bool) (st : AdminSettings)
    (x_api_key : Option String) : GateResult :=
  if !st.ALLOW_REAL_ADS then
    .httpError 403 "Real ad creation disabled on server"
  else if !pyTruthy x_api_key then
    .httpError 401 "Missing admin key in X-API-KEY header"
  else
    let key := x_api_key.getD ""
    if pyTruthy st.ADMIN_KEY_HASH then
      if checkpw key (st.ADMIN_KEY_HASH.getD "") then .proceed true
      else .httpError 401 "Invalid admin key"
    else if pyTruthy st.ADMIN_KEY then
      if key == st.ADMIN_KEY.getD "" then .proceed false
      else .httpError 401 "Invalid admin key"
    else
      .httpError 401 "Invalid admin key"

/-- What `export_campaign` does between the gate and the router call:
`routerInvoked` is whether control reaches `platform_router.export_to_platforms`
(line 1026), `authFailure` the `HTTPException` raised instead (if any). -/
structure ExportCallOutcome where
  routerInvoked : Bool
  authFailure : Option (Nat × String)
  usedHashComparison : Option Bool
  deriving Repr, DecidableEq

/-- Steps 3-4 of `export_campaign`: in commit mode the gate is evaluated
first and an authorization failure returns before the router runs; in
preview mode the gate is skipped. -/
def exportCampaignGate (checkpw : String → String → Bool) (st : AdminSettings)
    (create_real_ads : Bool) (x_api_key : Option String) : ExportCallOutcome :=
  if create_real_ads then
    match adminGate checkpw st x_api_key with
    | .httpError s d => ⟨false, some (s, d), none⟩
    | .proceed usedHash => ⟨true, none, some usedHash⟩
  else ⟨true, none, none⟩

/-- **C7, counterexample**. With `ADMIN_KEY_HASH` unset and `ADMIN_KEY`
configured, a commit-mode export proceeds to the provider adapters with the
operator token verified only by plain string equality — no hash comparison
takes place (even a bcrypt stub that rejects everything is never
consulted), so the claim that the token is verified by hash comparison
before any adapter runs is false for this configuration. -/
theorem commit_gate_hash_comparison_cex :
    (exportCampaignGate (fun _ _ => false) ⟨true, none, some "sekrit"⟩
        true (some "sekrit")).routerInvoked = true ∧
    (exportCampaignGate (fun _ _ => false) ⟨true, none, some "sekrit"⟩
        true (some "sekrit")).usedHashComparison = some false := by
  constructor
  · decide
  · decide

/-- **C7, amended**. In commit mode the operator-token gate is evaluated
before the platform router: if real-ads are disabled, the token is missing,
or verification fails, the call raises an authorization error and the router
— hence every provider adapter — is never invoked; whenever a commit-mode
call does reach the router, real ads were enabled and the token was present
and verified, by bcrypt hash comparison when `ADMIN_KEY_HASH` is configured
and otherwise by plain equality with `ADMIN_KEY`. -/
theorem commit_gate_before_adapters (checkpw : String → String → Bool)
    (st : AdminSettings) (x_api_key : Option String) :
    (st.ALLOW_REAL_ADS = false →
      exportCampaignGate checkpw st true x_api_key =
        ⟨false, some (403, "Real ad creation disabled on server"), none⟩) ∧
    (st.ALLOW_REAL_ADS = true → pyTruthy x_api_key = false →
      exportCampaignGate checkpw st true x_api_key =
        ⟨false, some (401, "Missing admin key in X-API-KEY header"), none⟩) ∧
    ((exportCampaignGate checkpw st true x_api_key).authFailure.isSome →
      (exportCampaignGate checkpw st true x_api_key).routerInvoked = false) ∧
    ((exportCampaignGate checkpw st true x_api_key).routerInvoked = true →
      st.ALLOW_REAL_ADS = true ∧ pyTruthy x_api_key = true ∧
      ((pyTruthy st.ADMIN_KEY_HASH = true ∧
          checkpw (x_api_key.getD "") (st.ADMIN_KEY_HASH.getD "") = true ∧
          (exportCampaignGate checkpw st true x_api_key).usedHashComparison = some true) ∨
       (pyTruthy st.ADMIN_KEY_HASH = false ∧ pyTruthy st.ADMIN_KEY = true ∧
          x_api_key.getD "" = st.ADMIN_KEY.getD "" ∧
          (exportCampaignGate checkpw st true x_api_key).usedHashComparison = some false))) := by
  refine ⟨?_, ?_, ?_, ?_⟩
  · intro hA
    simp [exportCampaignGate, adminGate, hA]
  · intro hA hk
    simp [exportCampaignGate, adminGate, hA, hk]
  · intro hsome
    cases hA : st.ALLOW_REAL_ADS <;>
      cases hk : pyTruthy x_api_key <;>
      cases hh : pyTruthy st.ADMIN_KEY_HASH <;>
      cases ha : pyTruthy st.ADMIN_KEY <;>
      by_cases hcp : checkpw (x_api_key.getD "") (st.ADMIN_KEY_HASH.getD "") = true <;>
      by_cases heq : (x_api_key.getD "" == st.ADMIN_KEY.getD "") = true <;>
      simp_all [exportCampaignGate, adminGate]
  · intro hinv
    cases hA : st.ALLOW_REAL_ADS <;>
      cases hk : pyTruthy x_api_key <;>
      cases hh : pyTruthy st.ADMIN_KEY_HASH <;>
      cases ha : pyTruthy st.ADMIN_KEY <;>
      by_cases hcp : checkpw (x_api_key.getD "") (st.ADMIN_KEY_HASH.getD "") = true <;>
      by_cases heq : (x_api_key.getD "" == st.ADMIN_KEY.getD "") = true <;>
      simp_all [exportCampaignGate, adminGate]

/-- Witness for `commit_gate_before_adapters`: with real ads disabled, a
commit-mode export fails with 403 and the router is not invoked. -/
theorem commit_gate_before_adapters_witness :
    exportCampaignGate (fun _ _ => true) ⟨false, none, none⟩ true (some "k") =
      ⟨false, some (403, "Real ad creation disabled on server"), none⟩ := by
  exact (commit_gate_before_adapters (fun _ _ => true) ⟨false, none, none⟩
    (some "k")).1 rfl

end AdTargetAI

namespace AdTargetAI

/-! ## Facebook provider adapter, commit mode

From `FacebookExporter` (`app/export_manager/facebook_exporter.py`). Each
of the four creation steps is modelled by the observable outcome of its
remote `account.create_*` call: an object whose id extraction succeeds, an
object with no extractable id, or a raised exception. `attempted` is the
instrumentation recording which remote create calls were actually issued. -/

/-- Outcome of one remote creation call. -/
inductive StepOutcome where
  | ok (id : String)
  | noId
  | exn (msg : String)
  deriving Repr, DecidableEq

/-- The remote behaviour of the four dependent creation steps. -/
structure FBEnv where
  campaign : StepOutcome
  adset : StepOutcome
  creative : StepOutcome
  ad : StepOutcome
  deriving Repr, DecidableEq

/-- Mutable locals of `_create_facebook_entities_sync` (`created`,
`step_details`, `errors`), plus the `attempted` instrumentation. -/
structure FBState where
  created : List (String × String)
  step_details : List (String × String)
  errors : List String
  attempted : List String
  deriving Repr, DecidableEq

/-- The final dictionary returned by the flow. -/
structure FBResult where
  status : String
  created : List (String × String)
  step_details : List (String × String)
  errors : List String
  message : String
  attempted : List String
  deriving Repr, DecidableEq

/-- Step 1, `# 1) Create Campaign` (lines 268-285): a raised exception is
wrapped as `Campaign creation failed: …` and re-raised to the outer
handler; a missing id only records an error and continues. -/
def fbRunCampaign (env : FBEnv) (st : FBState) : Except (String × FBState) FBState :=
  let st := { st with attempted := st.attempted ++ ["campaign"] }
  match env.campaign with
  | .ok id =>
      .ok { st with
        created := dictInsert st.created "campaign_id" id,
        step_details := dictInsert st.step_details "campaign"
          ("Created successfully (ID: " ++ id ++ ")") }
  | .noId =>
      .ok { st with
        errors := st.errors ++ ["Failed to create campaign: No ID returned"],
        step_details := dictInsert st.step_details "campaign" "Failed - No ID returned" }
  | .exn m =>
      .error ("Campaign creation failed: " ++ m,
        { st with
          errors := st.errors ++ ["Campaign creation failed: " ++ m],
          step_details := dictInsert st.step_details "campaign" ("Failed - " ++ m) })

/-- Step 2, `# 2) Create AdSet` (lines 287-306). The assignment
`adset_params["campaign_id"] = created["campaign_id"]` runs before the
remote call, so a missing campaign id raises `KeyError('campaign_id')`
inside this step's `try` and no ad-set creation is attempted. -/
def fbRunAdset (env : FBEnv) (st : FBState) : Except (String × FBState) FBState :=
  match List.lookup "campaign_id" st.created with
  | none =>
      .error ("AdSet creation failed: 'campaign_id'",
        { st with
          errors := st.errors ++ ["AdSet creation failed: 'campaign_id'"],
          step_details := dictInsert st.step_details "adset" "Failed - 'campaign_id'" })
  | some _ =>
      let st := { st with attempted := st.attempted ++ ["adset"] }
      match env.adset with
      | .ok id =>
          .ok { st with
            created := dictInsert st.created "adset_id" id,
            step_details := dictInsert st.step_details "adset"
              ("Created successfully (ID: " ++ id ++ ")") }
      | .noId =>
          .ok { st with
            errors := st.errors ++ ["Failed to create adset: No ID returned"],
            step_details := dictInsert st.step_details "adset" "Failed - No ID returned" }
      | .exn m =>
          .error ("AdSet creation failed: " ++ m,
            { st with
              errors := st.errors ++ ["AdSet creation failed: " ++ m],
              step_details := dictInsert st.step_details "adset" ("Failed - " ++ m) })

/-- Step 3, `# 3) Create Creative` (lines 308-326): consumes nothing from
`created`, so it is attempted whenever step 2 did not raise. -/
def fbRunCreative (env : FBEnv) (st : FBState) : Except (String × FBState) FBState :=
  let st := { st with attempted := st.attempted ++ ["creative"] }
  match env.creative with
  | .ok id =>
      .ok { st with
        created := dictInsert st.created "creative_id" id,
        step_details := dictInsert st.step_details "creative"
          ("Created successfully (ID: " ++ id ++ ")") }
  | .noId =>
      .ok { st with
        errors := st.errors ++ ["Failed to create creative: No ID returned"],
        step_details := dictInsert st.step_details "creative" "Failed - No ID returned" }
  | .exn m =>
      .error ("Creative creation failed: " ++ m,
        { st with
          errors := st.errors ++ ["Creative creation failed: " ++ m],
          step_details := dictInsert st.step_details "creative" ("Failed - " ++ m) })

/-- Step 4, `# 4) Create Ad` (lines 328-348): reads `created["adset_id"]`
then `created["creative_id"]` before the remote call, raising a `KeyError`
for the first missing one. -/
def fbRunAd (env : FBEnv) (st : FBState) : Except (String × FBState) FBState :=
  match List.lookup "adset_id" st.created with
  | none =>
      .error ("Ad creation failed: 'adset_id'",
        { st with
          errors := st.errors ++ ["Ad creation failed: 'adset_id'"],
          step_details := dictInsert st.step_details "ad" "Failed - 'adset_id'" })
  | some _ =>
      match List.lookup "creative_id" st.created with
      | none =>
          .error ("Ad creation failed: 'creative_id'",
            { st with
              errors := st.errors ++ ["Ad creation failed: 'creative_id'"],
              step_details := dictInsert st.step_details "ad" "Failed - 'creative_id'" })
      | some _ =>
          let st := { st with attempted := st.attempted ++ ["ad"] }
          match env.ad with
          | .ok id =>
              .ok { st with
                created := dictInsert st.created "ad_id" id,
                step_details := dictInsert st.step_details "ad"
                  ("Created successfully (ID: " ++ id ++ ")") }
          | .noId =>
              .ok { st with
                errors := st.errors ++ ["Failed to create ad: No ID returned"],
                step_details := dictInsert st.step_details "ad" "Failed - No ID returned" }
          | .exn m =>
              .error ("Ad creation failed: " ++ m,
                { st with
                  errors := st.errors ++ ["Ad creation failed: " ++ m],
                  step_details := dictInsert st.step_details "ad" ("Failed - " ++ m) })

/-- `_create_facebook_entities_sync` (lines 260-381): the four steps in
sequence; a re-raised step exception reaches the outer handler, which
returns `status = "error"` with the state accumulated so far; otherwise the
status is `partial_success` when any error was recorded and `success`
otherwise. -/
def createFacebookEntities (env : FBEnv) : FBResult :=
  let run := (fbRunCampaign env ⟨[], [], [], []⟩).bind (fbRunAdset env) |>.bind
    (fbRunCreative env) |>.bind (fbRunAd env)
  match run with
  | .error (msg, st) =>
      ⟨"error", st.created, st.step_details, st.errors, msg, st.attempted⟩
  | .ok st =>
      if st.errors.isEmpty then
        ⟨"success", st.created, st.step_details, [],
          "Facebook campaign and all assets created successfully.", st.attempted⟩
      else
        ⟨"partial_success", st.created, st.step_details, st.errors,
          "Facebook campaign created with " ++ toString st.errors.length ++ " error(s)",
          st.attempted⟩

/-- The adapter preconditions checked by `create_campaign_flow`
(lines 66-116). -/
structure FBExporterCfg where
  is_initialized : Bool
  has_ad_account : Bool
  deriving Repr, DecidableEq

/-- `create_campaign_flow`: preview mode always reports success without
touching the network (mock identifiers omitted); commit mode refuses to
start when the SDK is uninitialized or the ad-account id is missing, and
otherwise runs the four-step creation sequence. -/
def createCampaignFlow (cfg : FBExporterCfg) (create_real_ads : Bool)
    (env : FBEnv) : FBResult :=
  if !create_real_ads then
    ⟨"success", [],
      [("campaign", "Payload generated"), ("adset", "Payload generated"),
       ("creative", "Payload generated"), ("ad", "Payload generated")],
      [], "Dry-run: payload prepared.", []⟩
  else if !cfg.is_initialized || !cfg.has_ad_account then
    ⟨"error", [], [], [],
      "Facebook SDK not initialized or FACEBOOK_AD_ACCOUNT_ID missing.", []⟩
  else
    createFacebookEntities env

/-- **C5, counterexample**. First step succeeds (campaign id `"1"`), second
step raises: the claim requires overall status `partial_success` (an earlier
step succeeded, a later one failed), but the code returns `error`. -/
theorem fb_partial_success_cex :
    List.lookup "campaign_id"
        (createFacebookEntities ⟨.ok "1", .exn "boom", .ok "2", .ok "3"⟩).created
      = some "1" ∧
    (createFacebookEntities ⟨.ok "1", .exn "boom", .ok "2", .ok "3"⟩).status = "error" ∧
    (createFacebookEntities ⟨.ok "1", .exn "boom", .ok "2", .ok "3"⟩).status ≠
      "partial_success" := by
  refine ⟨by decide, by decide, by decide⟩

/-- **C5, amended**. In commit mode: the adapter returns `error` and attempts
no creation step when it could not begin (SDK uninitialized or account id
missing). A step that raises stops execution — no later create call is
attempted — and makes the overall status `error`, even when earlier steps
succeeded. The overall status is `success` iff all four steps returned an
id, and `partial_success` iff the first three steps returned ids while the
final ad step completed without returning an id (a recorded no-id failure
does not stop execution by itself, but any other no-id failure starves a
later step's dependency lookup, which raises and again yields `error`). -/
theorem fb_commit_flow_statuses (cfg : FBExporterCfg) (env : FBEnv) :
    (cfg.is_initialized = false ∨ cfg.has_ad_account = false →
      (createCampaignFlow cfg true env).status = "error" ∧
      (createCampaignFlow cfg true env).attempted = []) ∧
    ((createFacebookEntities env).status = "success" ↔
      (∃ i, env.campaign = .ok i) ∧ (∃ i, env.adset = .ok i) ∧
      (∃ i, env.creative = .ok i) ∧ (∃ i, env.ad = .ok i)) ∧
    ((createFacebookEntities env).status = "partial_success" ↔
      (∃ i, env.campaign = .ok i) ∧ (∃ i, env.adset = .ok i) ∧
      (∃ i, env.creative = .ok i) ∧ env.ad = .noId) ∧
    (∀ m, env.campaign = .exn m →
      (createFacebookEntities env).status = "error" ∧
      (createFacebookEntities env).attempted = ["campaign"]) ∧
    (∀ m, env.adset = .exn m →
      (createFacebookEntities env).status = "error" ∧
      "creative" ∉ (createFacebookEntities env).attempted ∧
      "ad" ∉ (createFacebookEntities env).attempted) ∧
    (∀ m, env.creative = .exn m →
      (createFacebookEntities env).status = "error" ∧
      "ad" ∉ (createFacebookEntities env).attempted) := by
  obtain ⟨c1, c2, c3, c4⟩ := env
  refine ⟨?_, ?_⟩
  · rintro (h | h) <;>
      simp [createCampaignFlow, h]
  · cases c1 <;> cases c2 <;> cases c3 <;> cases c4 <;>
      simp [createFacebookEntities, fbRunCampaign, fbRunAdset, fbRunCreative,
        fbRunAd, Except.bind, dictInsert, List.lookup]

/-- Witness for `fb_commit_flow_statuses`: an uninitialized adapter in
commit mode reports `error` without attempting any step, and a fully
successful environment reports `success`. -/
theorem fb_commit_flow_statuses_witness :
    (createCampaignFlow ⟨false, true⟩ true ⟨.ok "1", .ok "2", .ok "3", .ok "4"⟩).status
      = "error" ∧
    (createFacebookEntities ⟨.ok "1", .ok "2", .ok "3", .ok "4"⟩).status = "success" := by
  constructor
  · exact ((fb_commit_flow_statuses ⟨false, true⟩
      ⟨.ok "1", .ok "2", .ok "3", .ok "4"⟩).1 (Or.inl rfl)).1
  · exact ((fb_commit_flow_statuses ⟨false, true⟩
      ⟨.ok "1", .ok "2", .ok "3", .ok "4"⟩).2.1).2
      ⟨⟨"1", rfl⟩, ⟨"2", rfl⟩, ⟨"3", rfl⟩, ⟨"4", rfl⟩⟩

end AdTargetAI

namespace AdTargetAI

/-! ## Reasoning client

From `MistralReasoner` (`app/llm_reasoner/mistral_reasoner.py`) and the
pydantic `AudienceInsights` model (`app/core/models.py`). -/

/-- The `CampaignInput` fields the reasoner's fallback path reads. -/
structure CampaignInput where
  product_name : String
  product_description : String
  category : String
  price_range : String
  platforms : List String
  target_location : List String
  call_to_action : String
  deriving Repr, DecidableEq

/-- The `AudienceInsights` payload. -/
structure Insights where
  age_min : Int
  age_max : Int
  genders : List String
  interests : List String
  behaviors : List String
  locations : List String
  languages : List String
  suggested_ctas : List String
  campaign_objectives : List String
  platform_recommendations : List (String × String)
  ideal_posting_times : List (String × List String)
  deriving Repr, DecidableEq

/-- The pydantic age constraints of `AudienceInsights`
(`app/core/models.py` 36-52): `ge=13, le=80` on both bounds and the
`age_max > age_min` validator. -/
def audienceAgeBoundsOk (age_min age_max : Int) : Bool :=
  decide (13 ≤ age_min) && decide (age_min ≤ 80) &&
  decide (13 ≤ age_max) && decide (age_max ≤ 80) &&
  decide (age_min < age_max)

/-- `AudienceInsights.model_validate`: rejects the whole payload when the
age constraints fail (the list/dict fields of the model carry no
constraints). -/
def audienceModelValidate (i : Insights) : Except String Insights :=
  if audienceAgeBoundsOk i.age_min i.age_max then .ok i
  else .error "AudienceInsights validation error"

/-- Python `list(set(xs))`: duplicates removed; the set's iteration order is
unspecified, modelled as first-occurrence order. -/
def dedupAux {α : Type} [BEq α] (seen : List α) : List α → List α
  | [] => []
  | a :: t => if seen.elem a then dedupAux seen t else a :: dedupAux (a :: seen) t

def pySetDedup {α : Type} [BEq α] (l : List α) : List α := dedupAux [] l

/-- `MistralReasoner._generate_platform_strategy` (lines 553-566). -/
def genPlatformStrategy (platform : String) (ci : CampaignInput) : String :=
  if platform == "facebook" then
    "Use detailed interest targeting for " ++ ci.category ++
      " enthusiasts with carousel ads showcasing key benefits and social proof"
  else if platform == "instagram" then
    "Leverage visual storytelling through Reels and Stories targeting " ++
      ci.price_range ++ " consumers interested in " ++ ci.category
  else if platform == "tiktok" then
    "Create authentic, trending content with demonstrations and user testimonials targeting Gen Z and Millennials"
  else if platform == "youtube" then
    "Produce educational content and detailed reviews targeting consideration-stage buyers researching " ++
      ci.category
  else if platform == "linkedin" then
    "Target professionals and B2B decision makers with case studies and industry insights about " ++
      ci.category
  else if platform == "x" then
    "Engage in real-time conversations about " ++ ci.category ++
      " using polls and thread storytelling for immediate engagement"
  else if platform == "snapchat" then
    "Use AR filters and short, authentic video content targeting Gen Z with a sense of urgency and exclusivity"
  else
    "Implement platform-appropriate content strategy focusing on " ++
      ci.product_name ++ " benefits"

/-- `MistralReasoner._generate_fallback_insights` (lines 568-623):
deterministic rule-based insights from the price tier and category. -/
def fallbackInsights (ci : CampaignInput) : Insights :=
  let price_range := pyToLower ci.price_range
  let ages : Int × Int :=
    if pyContains price_range "luxury" then (35, 65)
    else if pyContains price_range "premium" then (28, 55)
    else (18, 45)
  let interests0 : List String :=
    if pyContains price_range "luxury" then
      ["luxury_goods", "premium_brands", "exclusive_products", "quality_craftsmanship"]
    else if pyContains price_range "premium" then
      ["quality_products", "brand_reputation", "premium_lifestyle", "durable_goods"]
    else
      ["value_shopping", "deals", "trendy_products", "budget_friendly"]
  let behaviors : List String :=
    if pyContains price_range "luxury" then
      ["affluent_shoppers", "brand_loyalty", "research_intensive"]
    else if pyContains price_range "premium" then
      ["comparison_shoppers", "review_readers", "value_seekers"]
    else
      ["impulse_buyers", "social_shoppers", "deal_seekers"]
  let category := pyToLower ci.category
  let interests1 :=
    if ["home", "decor", "furniture"].any (fun t => pyContains category t) then
      interests0 ++ ["home_improvement", "interior_design", "diy_projects"]
    else if ["tech", "electronic", "gadget"].any (fun t => pyContains category t) then
      interests0 ++ ["technology", "innovation", "gadget_reviews"]
    else if ["fitness", "health", "wellness"].any (fun t => pyContains category t) then
      interests0 ++ ["exercise", "nutrition", "healthy_lifestyle"]
    else interests0
  { age_min := ages.1,
    age_max := ages.2,
    genders := ["female", "male"],
    interests := pySetDedup interests1,
    behaviors := behaviors,
    locations := ci.target_location,
    languages := ["English"],
    suggested_ctas := [ci.call_to_action, "Shop Now", "Discover More", "Get Started", "Learn More"],
    campaign_objectives := ["awareness", "conversions", "engagement"],
    platform_recommendations := ci.platforms.map (fun p => (p, genPlatformStrategy p ci)),
    ideal_posting_times :=
      [("facebook", ["19:00", "20:00", "21:00"]),
       ("instagram", ["17:00", "19:00", "21:00"]),
       ("tiktok", ["18:00", "20:00", "22:00"]),
       ("youtube", ["20:00", "21:00", "22:00"])] }

/-- One HTTP response of the reasoning service, as classified by
`_call_mistral_api` (lines 169-254). -/
inductive ApiResp where
  | okText (content : String)
  | rateLimited (retryAfter : Option Nat)
  | errStatus (code : Nat) (body : String)
  | timeout
  deriving Repr, DecidableEq

/-- `self.retry_attempts = 5` (line 26). -/
def RETRY_ATTEMPTS : Nat := 5

/-- The retry loop of `_call_mistral_api`, tracking how many network
attempts were issued. Backoff sleeps are timing, not state, and are
omitted. A 3xx status raises "unexpected status", is caught by the generic
handler and retried like the other transient failures. -/
def apiLoop (resp : Nat → ApiResp) :
    Nat → Nat → Nat → (Except String String) × Nat
  | 0, _, made => (.error "All retry attempts to Mistral API failed", made)
  | n + 1, attempt, made =>
      match resp attempt with
      | .okText c => (.ok c, made + 1)
      | .rateLimited _ =>
          if n == 0 then (.error "Mistral API rate limit exceeded (429)", made + 1)
          else apiLoop resp n (attempt + 1) (made + 1)
      | .errStatus code body =>
          if n == 0 then
            if 400 ≤ code then
              (.error ("Mistral API error " ++ toString code ++ ": " ++ body), made + 1)
            else
              (.error ("Mistral API unexpected status " ++ toString code ++ ": " ++ body),
                made + 1)
          else apiLoop resp n (attempt + 1) (made + 1)
      | .timeout =>
          if n == 0 then (.error "Mistral API timeout", made + 1)
          else apiLoop resp n (attempt + 1) (made + 1)

/-- `_call_mistral_api`: at most `retry_attempts = 5` network attempts. -/
def callMistralApi (resp : Nat → ApiResp) : (Except String String) × Nat :=
  apiLoop resp RETRY_ATTEMPTS 0 0

/-- `max_retries = 2` in `infer_audience_insights` (line 61). -/
def MAX_RETRIES : Nat := 2

/-- The retry loop of `infer_audience_insights` (lines 62-76): one attempt
is the whole `_generate_ai_insights` → enhance → `model_validate` pipeline,
abstracted by its outcome; on the last failed attempt the deterministic
fallback is built and validated instead. -/
def inferLoop (attemptOutcome : Nat → Except String Insights) (ci : CampaignInput) :
    Nat → Nat → Except String Insights
  | 0, _ => .error "no attempts configured"
  | 1, attempt =>
      match attemptOutcome attempt with
      | .ok r => .ok r
      | .error _ => audienceModelValidate (fallbackInsights ci)
  | n + 2, attempt =>
      match attemptOutcome attempt with
      | .ok r => .ok r
      | .error _ => inferLoop attemptOutcome ci (n + 1) (attempt + 1)

/-- `MistralReasoner.infer_audience_insights`. -/
def inferAudienceInsights (attemptOutcome : Nat → Except String Insights)
    (ci : CampaignInput) : Except String Insights :=
  inferLoop attemptOutcome ci MAX_RETRIES 0

theorem apiLoop_made_le (resp : Nat → ApiResp) (n attempt made : Nat) :
    (apiLoop resp n attempt made).2 ≤ made + n := by
  induction n generalizing attempt made with
  | zero => simp [apiLoop]
  | succ k ih =>
      cases hr : resp attempt with
      | okText c => simp [apiLoop, hr]
      | rateLimited ra =>
          by_cases hk : k = 0
          all_goals
            simp [apiLoop, hr, hk] <;>
              first
                | omega
                | (have hrec := ih (attempt + 1) (made + 1); omega)
      | errStatus code body =>
          by_cases hk : k = 0 <;> by_cases hc : 400 ≤ code <;>
            simp [apiLoop, hr, hk, hc] <;>
            first
              | omega
              | (have hrec := ih (attempt + 1) (made + 1); omega)
      | timeout =>
          by_cases hk : k = 0
          all_goals
            simp [apiLoop, hr, hk] <;>
              first
                | omega
                | (have hrec := ih (attempt + 1) (made + 1); omega)

theorem fallback_validates (ci : CampaignInput) :
    audienceModelValidate (fallbackInsights ci) = .ok (fallbackInsights ci) := by
  by_cases h1 : pyContains (pyToLower ci.price_range) "luxury" = true <;>
    by_cases h2 : pyContains (pyToLower ci.price_range) "premium" = true <;>
    simp [audienceModelValidate, audienceAgeBoundsOk, fallbackInsights, h1, h2]

/-- **C6**. The reasoning client's attempt budget is finite — the API loop
issues at most 5 network attempts, and exactly 5 when the service returns
429 on every attempt, after which it raises — and `infer_audience_insights`
never raises to its caller: it always returns a validated insights object,
and when every AI attempt fails it returns exactly the deterministic
rule-based fallback, whose luxury heuristic gives `age_min = 35 ≥ 30` and a
non-empty interests list whenever the price tier contains "luxury". -/
theorem reasoner_bounded_fallback (ci : CampaignInput)
    (attemptOutcome : Nat → Except String Insights) (resp : Nat → ApiResp) :
    ((∀ n, resp n = .rateLimited none) →
      callMistralApi resp = (.error "Mistral API rate limit exceeded (429)", 5)) ∧
    (callMistralApi resp).2 ≤ 5 ∧
    (∃ r, inferAudienceInsights attemptOutcome ci = .ok r) ∧
    ((∀ n, (attemptOutcome n).isOk = false) →
      inferAudienceInsights attemptOutcome ci = .ok (fallbackInsights ci)) ∧
    (pyContains (pyToLower ci.price_range) "luxury" = true →
      (fallbackInsights ci).age_min = 35 ∧ 30 ≤ (fallbackInsights ci).age_min ∧
      (fallbackInsights ci).interests ≠ []) := by
  refine ⟨?_, ?_, ?_, ?_, ?_⟩
  · intro h
    simp [callMistralApi, RETRY_ATTEMPTS, apiLoop, h]
  · simpa [callMistralApi, RETRY_ATTEMPTS] using apiLoop_made_le resp 5 0 0
  · unfold inferAudienceInsights MAX_RETRIES inferLoop
    cases h0 : attemptOutcome 0 with
    | ok r => exact ⟨r, rfl⟩
    | error e =>
        simp only []
        cases h1 : attemptOutcome 1 with
        | ok r => exact ⟨r, by simp [inferLoop, h1]⟩
        | error e2 =>
            exact ⟨fallbackInsights ci, by simp [inferLoop, h1, fallback_validates]⟩
  · intro hfail
    unfold inferAudienceInsights MAX_RETRIES inferLoop
    cases h0 : attemptOutcome 0 with
    | ok r =>
        have hc := hfail 0
        rw [h0] at hc
        simp [Except.isOk, Except.toBool] at hc
    | error e =>
        cases h1 : attemptOutcome 1 with
        | ok r =>
            have hc := hfail 1
            rw [h1] at hc
            simp [Except.isOk, Except.toBool] at hc
        | error e2 => simp [inferLoop, h1, fallback_validates]
  · intro hlux
    refine ⟨?_, ?_, ?_⟩
    · simp [fallbackInsights, hlux]
    · simp [fallbackInsights, hlux]
    · by_cases hcat : ["home", "decor", "furniture"].any
          (fun t => pyContains (pyToLower ci.category) t) = true <;>
        by_cases hcat2 : ["tech", "electronic", "gadget"].any
          (fun t => pyContains (pyToLower ci.category) t) = true <;>
        by_cases hcat3 : ["fitness", "health", "wellness"].any
          (fun t => pyContains (pyToLower ci.category) t) = true <;>
        simp [fallbackInsights, hlux, hcat, hcat2, hcat3, pySetDedup, dedupAux]

/-- Witness for `reasoner_bounded_fallback`: a luxury-tier campaign against
a service that always answers 429 makes exactly 5 bounded attempts, then the
pipeline still completes with the rule-based fallback (`age_min = 35`,
non-empty interests). -/
theorem reasoner_bounded_fallback_witness :
    callMistralApi (fun _ => .rateLimited none) =
      (.error "Mistral API rate limit exceeded (429)", 5) ∧
    inferAudienceInsights (fun _ => .error "Mistral API rate limit exceeded (429)")
        ⟨"Swiss Watch", "A handcrafted timepiece", "watches", "luxury",
          ["facebook"], ["US"], "Shop Now"⟩ =
      .ok (fallbackInsights
        ⟨"Swiss Watch", "A handcrafted timepiece", "watches", "luxury",
          ["facebook"], ["US"], "Shop Now"⟩) ∧
    30 ≤ (fallbackInsights
        ⟨"Swiss Watch", "A handcrafted timepiece", "watches", "luxury",
          ["facebook"], ["US"], "Shop Now"⟩).age_min ∧
    (fallbackInsights
        ⟨"Swiss Watch", "A handcrafted timepiece", "watches", "luxury",
          ["facebook"], ["US"], "Shop Now"⟩).interests ≠ [] := by
  have h := reasoner_bounded_fallback
    ⟨"Swiss Watch", "A handcrafted timepiece", "watches", "luxury",
      ["facebook"], ["US"], "Shop Now"⟩
    (fun _ => .error "Mistral API rate limit exceeded (429)")
    (fun _ => .rateLimited none)
  have hlux := h.2.2.2.2 (by decide)
  exact ⟨h.1 (fun n => rfl), h.2.2.2.1 (fun n => rfl), hlux.2.1, hlux.2.2⟩

end AdTargetAI

namespace AdTargetAI

/-! ## Response field validation

`MistralReasoner._validate_insights_data` (lines 374-521), restricted to
the fields the claim speaks about: the age range and the hashtag list. -/

/-- A parsed JSON age field as the validator sees it: absent or falsy
(Python `0` is falsy, so it is replaced by the default like a missing key),
an `int()`-convertible value, or junk on which `int()` raises. -/
inductive JsonAge where
  | missing
  | num (n : Int)
  | junk
  deriving Repr, DecidableEq

/-- The claim-relevant slice of the parsed response dictionary. -/
structure ParsedInsights where
  age_min : JsonAge
  age_max : JsonAge
  price_range : Option String
  hashtags : List String
  deriving Repr, DecidableEq

/-- The corresponding slice of the validator's output. -/
structure ValidatedInsights where
  age_min : Int
  age_max : Int
  hashtags : List String
  deriving Repr, DecidableEq

/-- The `required_fields` defaulting pass (lines 388-392) on one age field:
a missing or falsy value is replaced by the default (25 / 45). -/
def defaultAge (v : JsonAge) (d : Int) : JsonAge :=
  match v with
  | .missing => .num d
  | .num n => if n == 0 then .num d else .num n
  | .junk => .junk

/-- `_validate_insights_data`: age bounds clamp (lines 402-407, with the
`except` branch resetting both fields to the defaults when `int()` raises),
price-tier heuristic (lines 410-417), and hashtag normalization
(lines 433-446: first 8 entries, blanks dropped, `#` prefixed with inner
spaces removed, first-occurrence dedup). -/
def validateInsightsData (d : ParsedInsights) : ValidatedInsights :=
  let amin := defaultAge d.age_min 25
  let amax := defaultAge d.age_max 45
  let ages : Int × Int :=
    match amin, amax with
    | .num n1, .num n2 =>
        let lo := max 13 (min 80 n1)
        (lo, max (lo + 1) (min 80 n2))
    | _, _ => (25, 45)
  let ages : Int × Int :=
    match d.price_range with
    | some pr =>
        if pr == "" then ages
        else
          let p := pyToLower pr
          if pyContains p "luxury" then (max ages.1 30, ages.2)
          else if pyContains p "premium" then (max ages.1 25, ages.2)
          else if pyContains p "budget" then (min ages.1 35, ages.2)
          else ages
    | none => ages
  let normalized := (d.hashtags.take 8).foldl
    (fun acc tag =>
      let s := tag.trim
      if s == "" then acc
      else if s.startsWith "#" then acc ++ [s]
      else acc ++ ["#" ++ (s.replace " " "")]) []
  { age_min := ages.1, age_max := ages.2, hashtags := pySetDedup normalized }

/-- **C8**: the code evaluated at the failing input. A parsed response with
`age_min = 90, age_max = 50` is clamped to `age_min = 80` but then
`age_max = max(80 + 1, min(80, 50)) = 81`, which exceeds the claimed (and
pydantic-declared, `le=80`) upper bound, so the repository's own
`AudienceInsights.model_validate` rejects the whole response. -/
theorem validate_age_clamp_bug :
    (validateInsightsData ⟨.num 90, .num 50, none, []⟩).age_min = 80 ∧
    (validateInsightsData ⟨.num 90, .num 50, none, []⟩).age_max = 81 ∧
    ¬ ((validateInsightsData ⟨.num 90, .num 50, none, []⟩).age_max ≤ 80) ∧
    audienceAgeBoundsOk
        (validateInsightsData ⟨.num 90, .num 50, none, []⟩).age_min
        (validateInsightsData ⟨.num 90, .num 50, none, []⟩).age_max = false := by
  refine ⟨by decide, by decide, by decide, by decide⟩

end AdTargetAI
